import Mathlib

/-!
Verification of the InfluxDB HTTP handler (`handler.go`): credential
extraction (`getUsernameAndPassword`), the authentication gate
(`makeAuthenticationHandler`) and the statement dispatcher (`serveQuery`).

The handler's collaborators that live outside `handler.go` — the `Server`
backend (`Users`, `Authenticate`, `AdminUserExists`, `CreateDatabase`, ...),
the `influxql` parser and the standard-library base64 decoder — are modelled
from the specification, as noted on each such definition.  Everything else
is a direct translation of the Go source.  Go panics (nil-pointer
dereference, out-of-range indexing) are made explicit through `GoResult`.
-/

namespace InfluxHandler

/-- The result of running a piece of Go code that may panic. -/
inductive GoResult (α : Type) where
  | ok (val : α)
  | panic (msg : String)
deriving DecidableEq, Repr

/-- Go runtime message for an out-of-range slice index. -/
def indexOutOfRangeMsg : String := "runtime error: index out of range"

/-- Go runtime message for dereferencing a nil pointer. -/
def nilDerefMsg : String :=
  "runtime error: invalid memory address or nil pointer dereference"

/-- Modelled from the spec: a user record of the external User Directory
(`Server` is not part of the handler source).  Carries the credential pair
and the admin flag used by `adminExists`. -/
structure User where
  name : String
  password : String
  admin : Bool
deriving DecidableEq, Repr

/-- A retention policy as marshalled by the dispatcher before the backend
call: `NewRetentionPolicy(name)` followed by assignments to `Duration` and
`ReplicaN` (a Go `uint32`, here a `Nat` kept below `2^32`). -/
structure RetentionPolicy where
  name : String
  duration : Int
  replicaN : Nat
deriving DecidableEq, Repr

/-- Modelled from the spec: the externally owned backend state consumed
through the capability interface (user directory, databases, retention
policies). -/
structure ServerState where
  databases : List String
  users : List User
  policies : List (String × RetentionPolicy)
deriving DecidableEq, Repr

/-- `h.server.AdminUserExists()`: does an admin-flagged user exist. -/
def ServerState.adminUserExists (st : ServerState) : Bool :=
  st.users.any (·.admin)

/-- The part of an HTTP request the handler consults: the `u` and `p` URL
query parameters and the `Authorization` header (`""` when absent, exactly
as Go's `Query().Get` / `Header.Get` report absence). -/
structure Request where
  qu : String
  qp : String
  authHeader : String
deriving DecidableEq, Repr

/-- Split a character list around every occurrence of `sep`; always returns
at least one group. -/
def splitChars (sep : Char) : List Char → List (List Char)
  | [] => [[]]
  | c :: cs =>
    if c = sep then [] :: splitChars sep cs
    else
      match splitChars sep cs with
      | [] => [[c]]
      | g :: gs => (c :: g) :: gs

/-- Go's `strings.Split(s, sep)` for a single-character separator (the two
separators `handler.go` uses, `" "` and `":"`, are single characters):
splits around every occurrence, keeping empty fields, and returns `[""]`
for the empty string. -/
def goSplit (s : String) (sep : Char) : List String :=
  (splitChars sep s.toList).map String.mk

/-- `getUsernameAndPassword` (handler.go lines 24-47), translated from the
source.  `b64` stands for the standard-library `base64.StdEncoding`
decoder, an external collaborator (`none` = decode error).  The
two-element pattern is Go's `len(fields) != 2` check followed by the
`fields[0]`, `fields[1]` reads. -/
def getUsernameAndPassword (b64 : String → Option String) (r : Request) :
    Except String (String × String) :=
  if r.qu ≠ "" ∧ r.qp ≠ "" then
    .ok (r.qu, r.qp)
  else if r.authHeader = "" then
    .ok ("", "")
  else
    match goSplit r.authHeader ' ' with
    | [_scheme, payload] =>
      match b64 payload with
      | none => .error "invalid Base64 encoding"
      | some bs =>
        match goSplit bs ':' with
        | [u, p] => .ok (u, p)
        | _ => .error "invalid Basic Authentication value"
    | _ => .error "invalid Basic Authentication header"

/-- The gate's decision: reject with a status and message (the downstream
handler is never invoked), or invoke the downstream handler with the
resolved identity (`none` = anonymous, Go's nil `*User`). -/
inductive GateDecision where
  | reject (status : Nat) (msg : String)
  | invoke (identity : Option User)
deriving DecidableEq, Repr

/-- The gate's decision together with whether `Server.Authenticate` was
called while reaching it. -/
structure GateResult where
  decision : GateDecision
  authenticateCalled : Bool
deriving DecidableEq, Repr

/-- `makeAuthenticationHandler` (handler.go lines 113-135), translated from
the source.  `users` is `h.server.Users()` and `authFn` is
`h.server.Authenticate`, both capabilities of the external backend. -/
def makeAuthenticationHandler (cfg : Bool) (users : List User)
    (authFn : String → String → Except String User)
    (b64 : String → Option String) (r : Request) : GateResult :=
  if cfg = true ∧ 0 < users.length then
    match getUsernameAndPassword b64 r with
    | .error e => ⟨.reject 401 e, false⟩
    | .ok (u, p) =>
      if u = "" then ⟨.reject 401 "username required", false⟩
      else
        match authFn u p with
        | .error e => ⟨.reject 401 e, true⟩
        | .ok usr => ⟨.invoke (some usr), true⟩
  else ⟨.invoke none, false⟩

/-- A statement produced by the external `influxql` parser; one constructor
per case of the `serveQuery` type switch.  `alterRetentionPolicy` carries
its duration and replication as nilable pointers (`Option`), exactly as
`*influxql.AlterRetentionPolicyStatement` does; `createRetentionPolicy`
carries plain values. -/
inductive Statement where
  | createDatabase (name : String)
  | dropDatabase (name : String)
  | createUser (name password : String)
  | dropUser (name : String)
  | select
  | dropSeries
  | listSeries
  | listMeasurements
  | listTagKeys
  | listTagValues
  | listFieldKeys
  | listFieldValues
  | grant
  | revoke
  | createRetentionPolicy (db name : String) (duration : Int) (replication : Int)
  | alterRetentionPolicy (db name : String) (duration : Option Int)
      (replication : Option Int)
  | createContinuousQuery
  | dropContinuousQuery
  | listContinuousQueries
deriving DecidableEq, Repr

/-- The Go conversion `uint32(x)` applied to a signed integer: the value
reduced modulo `2^32` into `[0, 2^32)`. -/
def goUint32OfInt (x : Int) : Nat := (x % (2 ^ 32 : Int)).toNat

/-- A backend mutation issued by the dispatcher, with the arguments the
handler marshals at the call site. -/
inductive BackendCall where
  | createDatabase (name : String)
  | deleteDatabase (name : String)
  | createUser (name password : String) (isFirstAdmin : Bool)
  | deleteUser (name : String)
  | createRetentionPolicy (db : String) (rp : RetentionPolicy)
  | updateRetentionPolicy (db name : String) (rp : RetentionPolicy)
deriving DecidableEq, Repr

/-- Modelled from the spec: the backend's execution of one mutation call
(§6 capability interface, §7 error taxonomy: Conflict when the target
already exists, NotFound when it is missing).  Returns the new state and
`none` on success or `some errorText` on failure.  `createUser`'s
`isFirstAdmin` flag auto-promotes the created user to admin. -/
def execCall (st : ServerState) : BackendCall → ServerState × Option String
  | .createDatabase n =>
    if st.databases.contains n then (st, some "database exists")
    else ({ st with databases := st.databases ++ [n] }, none)
  | .deleteDatabase n =>
    if st.databases.contains n then
      ({ st with databases := st.databases.filter (· ≠ n) }, none)
    else (st, some "database not found")
  | .createUser n p fa =>
    if st.users.any (·.name = n) then (st, some "user exists")
    else ({ st with users := st.users ++ [⟨n, p, fa⟩] }, none)
  | .deleteUser n =>
    if st.users.any (·.name = n) then
      ({ st with users := st.users.filter (¬ ·.name = n) }, none)
    else (st, some "user not found")
  | .createRetentionPolicy db rp =>
    if ¬ st.databases.contains db then (st, some "database not found")
    else if st.policies.any (fun q => q.1 = db ∧ q.2.name = rp.name) then
      (st, some "retention policy exists")
    else ({ st with policies := st.policies ++ [(db, rp)] }, none)
  | .updateRetentionPolicy db name rp =>
    if st.policies.any (fun q => q.1 = db ∧ q.2.name = name) then
      let updated :=
        st.policies.map (fun q => if q.1 = db ∧ q.2.name = name then (db, rp) else q)
      ({ st with policies := updated }, none)
    else (st, some "retention policy not found")

/-- Modelled from the spec: `Server.Authenticate` — look the user up by
name and verify the password, failing with an authentication error text
otherwise (§4.2: "unknown user or bad password"). -/
def ServerState.authenticate (st : ServerState) (u p : String) :
    Except String User :=
  match st.users.find? (·.name = u) with
  | none => .error ("user not found: " ++ u)
  | some usr => if usr.password = p then .ok usr else .error "invalid password"

/-- What one arm of the `serveQuery` type switch does: issue a backend call
and assign its error to `err` (the mutating arms), `continue` to the next
statement (the pass-through arms), or panic (the nil-pointer dereferences
`*c.Duration` / `*c.Replication` in the alter-retention-policy arm). -/
inductive StepAction where
  | call (c : BackendCall)
  | skip
  | crash (msg : String)
deriving DecidableEq, Repr

/-- The `serveQuery` type switch (handler.go lines 164-214), translated arm
by arm.  `st` is the backend state at the moment the statement is
dispatched: the create-user arm reads `h.server.AdminUserExists()` from it
to compute `isFirstAdmin`. -/
def dispatchStep (st : ServerState) : Statement → StepAction
  | .createDatabase n => .call (.createDatabase n)
  | .dropDatabase n => .call (.deleteDatabase n)
  | .createUser n p => .call (.createUser n p (! st.adminUserExists))
  | .dropUser n => .call (.deleteUser n)
  | .select => .skip
  | .dropSeries => .skip
  | .listSeries => .skip
  | .listMeasurements => .skip
  | .listTagKeys => .skip
  | .listTagValues => .skip
  | .listFieldKeys => .skip
  | .listFieldValues => .skip
  | .grant => .skip
  | .revoke => .skip
  | .createRetentionPolicy db name d rep =>
    .call (.createRetentionPolicy db
      { name := name, duration := d, replicaN := goUint32OfInt rep })
  | .alterRetentionPolicy db name d rep =>
    match d, rep with
    | some d, some rep =>
      .call (.updateRetentionPolicy db name
        { name := name, duration := d, replicaN := goUint32OfInt rep })
    | _, _ => .crash nilDerefMsg
  | .createContinuousQuery => .skip
  | .dropContinuousQuery => .skip
  | .listContinuousQueries => .skip

/-- An HTTP error response emitted through `h.error` (status code and
body). -/
structure Response where
  status : Nat
  body : String
deriving DecidableEq, Repr

/-- The responses written by the `if err != nil { h.error(...) }` check
after a mutating arm: one 400 response when the backend call failed,
nothing when it succeeded. -/
def errResponses : Option String → List Response
  | some m => [⟨400, "error executing query: " ++ m⟩]
  | none => []

/-- The `serveQuery` statement loop (handler.go lines 163-219), translated
from the source.  Go's `continue` arms jump straight to the next statement,
skipping the `if err != nil` check; a mutating arm assigns `err` and the
check then reports `h.error(..., 400)` — with no `return`, so the loop
keeps going after a failure.  The trace pairs every issued backend call
with the state at its dispatch.  (The `err` variable left over from a
previous iteration is never re-examined: every arm either reassigns it or
`continue`s past the check.) -/
def runStatements :
    ServerState → List Statement →
      GoResult (ServerState × List (ServerState × BackendCall) × List Response)
  | st, [] => .ok (st, [], [])
  | st, s :: rest =>
    match dispatchStep st s with
    | .crash m => .panic m
    | .skip => runStatements st rest
    | .call c =>
      match runStatements (execCall st c).1 rest with
      | .panic m => .panic m
      | .ok (st3, tr, rs) =>
        .ok (st3, (st, c) :: tr, errResponses (execCall st c).2 ++ rs)

/-- The bootstrap check at the top of `serveQuery` (handler.go lines
153-161), translated from the source: when authentication is enabled and
the directory is non-empty and the statement count differs from one, the
first statement is inspected (`query.Statements[0]` — an out-of-range
panic on a zero-statement query); the query is rejected unless that first
statement is a `CreateUserStatement`.  Returns `true` when the query must
be rejected with 401 "initial admin user does not exist". -/
def bootstrapCheck (cfg : Bool) (st : ServerState) (stmts : List Statement) :
    GoResult Bool :=
  if cfg = true ∧ 0 < st.users.length then
    if stmts.length ≠ 1 then
      match stmts with
      | [] => .panic indexOutOfRangeMsg
      | s0 :: _ =>
        match s0 with
        | .createUser _ _ => .ok false
        | _ => .ok true
    else .ok false
  else .ok false

/-- `serveQuery` after a successful parse (handler.go lines 149-219): the
bootstrap check, then the statement loop.  The identity `u` resolved by the
gate is passed in but, as in the source, never used.  Returns the final
backend state, the trace of backend calls (each paired with its
dispatch-time state) and the list of error responses written. -/
def serveQuery (cfg : Bool) (st : ServerState) (_u : Option User)
    (stmts : List Statement) :
    GoResult (ServerState × List (ServerState × BackendCall) × List Response) :=
  match bootstrapCheck cfg st stmts with
  | .panic m => .panic m
  | .ok true => .ok (st, [], [⟨401, "initial admin user does not exist"⟩])
  | .ok false => runStatements st stmts

/-- The `/query` route: the authentication gate wrapping `serveQuery`
(handler.go line 69).  `stmts` is the external parser's output for the
request's `q` parameter.  On gate rejection the downstream handler never
runs: the state is unchanged, no backend call is made, and the single
response is the gate's 401. -/
def handleQuery (cfg : Bool) (authFn : String → String → Except String User)
    (b64 : String → Option String) (st : ServerState) (r : Request)
    (stmts : List Statement) :
    GoResult (ServerState × List (ServerState × BackendCall) × List Response) :=
  match (makeAuthenticationHandler cfg st.users authFn b64 r).decision with
  | .reject status msg => .ok (st, [], [⟨status, msg⟩])
  | .invoke u => serveQuery cfg st u stmts

/-- Concrete empty backend state (bootstrap mode: no users). -/
def st0 : ServerState := ⟨[], [], []⟩

/-- Concrete backend state holding one admin user. -/
def stAdmin : ServerState := ⟨[], [⟨"lisa", "password", true⟩], []⟩

/-- Concrete backend state holding one database named "x" and no users. -/
def stX : ServerState := ⟨["x"], [], []⟩

/-- A concrete stand-in for the base64 decoder, used on paths that never
reach it. -/
def b64none : String → Option String := fun _ => none

/-- Does `dispatchStep` issue a backend call for this statement?  Depends
only on the statement's kind (and, for alter-retention-policy, on whether
both nilable fields are present), never on the backend state. -/
def isMutating : Statement → Bool
  | .createDatabase _ => true
  | .dropDatabase _ => true
  | .createUser _ _ => true
  | .dropUser _ => true
  | .createRetentionPolicy _ _ _ _ => true
  | .alterRetentionPolicy _ _ d rep => d.isSome && rep.isSome
  | _ => false

/-- The error response that an entry of the dispatch trace contributes:
`some` 400 response when its backend call fails, `none` when it
succeeds. -/
def responseOfCall (pc : ServerState × BackendCall) : Option Response :=
  match (execCall pc.1 pc.2).2 with
  | some m => some ⟨400, "error executing query: " ++ m⟩
  | none => none

/-- C7: for every request in which both the query-parameter username `u`
and password `p` are present (non-empty), the credential extractor returns
exactly that pair with no error, and the Authorization header is never
consulted: the result is unchanged under any header value and any base64
decoder. -/
theorem C7_query_params_win (b64 : String → Option String) (r : Request)
    (hqu : r.qu ≠ "") (hqp : r.qp ≠ "") :
    getUsernameAndPassword b64 r = .ok (r.qu, r.qp) ∧
    ∀ (b64m : String → Option String) (hdr : String),
      getUsernameAndPassword b64m ⟨r.qu, r.qp, hdr⟩ = .ok (r.qu, r.qp) := by
  constructor
  · unfold getUsernameAndPassword
    rw [if_pos ⟨hqu, hqp⟩]
  · intro b64m hdr
    unfold getUsernameAndPassword
    rw [if_pos ⟨hqu, hqp⟩]

/-- Witness for C7 at a concrete request carrying both query-parameter
credentials and an Authorization header. -/
theorem C7_witness :
    getUsernameAndPassword b64none ⟨"lisa", "password", "Basic ====" ⟩ =
      .ok ("lisa", "password") :=
  (C7_query_params_win b64none ⟨"lisa", "password", "Basic ====" ⟩
    (by decide) (by decide)).1

/-- C4: when authentication is disabled or the directory has zero users,
the gate invokes the downstream handler with the anonymous identity and
never calls `Authenticate`; the decision is identical for any two requests
(in particular for two requests differing only in supplied credentials). -/
theorem C4_disabled_or_bootstrap_anonymous (cfg : Bool) (users : List User)
    (authFn : String → String → Except String User)
    (b64 : String → Option String)
    (h : cfg = false ∨ users.length = 0) :
    (∀ r, makeAuthenticationHandler cfg users authFn b64 r =
      ⟨.invoke none, false⟩) ∧
    ∀ r r2, makeAuthenticationHandler cfg users authFn b64 r =
      makeAuthenticationHandler cfg users authFn b64 r2 := by
  have key : ∀ r, makeAuthenticationHandler cfg users authFn b64 r =
      ⟨.invoke none, false⟩ := by
    intro r
    have hcond : ¬ (cfg = true ∧ 0 < users.length) := by
      rintro ⟨hc, hl⟩
      rcases h with h | h
      · rw [h] at hc; cases hc
      · omega
    unfold makeAuthenticationHandler
    rw [if_neg hcond]
  exact ⟨key, fun r r2 => (key r).trans (key r2).symm⟩

/-- Witness for C4: authentication disabled, a user present, credentials
supplied — the gate still resolves to anonymous without consulting
`Authenticate`. -/
theorem C4_witness :
    makeAuthenticationHandler false stAdmin.users stAdmin.authenticate
      b64none ⟨"lisa", "password", ""⟩ = ⟨.invoke none, false⟩ :=
  (C4_disabled_or_bootstrap_anonymous false stAdmin.users stAdmin.authenticate
    b64none (Or.inl rfl)).1 ⟨"lisa", "password", ""⟩

/-- C8 counterexample: for the header `Authorization: BadValue` (no
space-split pair) the extractor's error text — and the gate's 401 message —
is "invalid Basic Authentication header", not the claimed
"invalid authentication header". -/
theorem C8_counterexample :
    getUsernameAndPassword b64none ⟨"", "", "BadValue"⟩ =
      .error "invalid Basic Authentication header" ∧
    "invalid Basic Authentication header" ≠ "invalid authentication header" ∧
    makeAuthenticationHandler true stAdmin.users stAdmin.authenticate b64none
      ⟨"", "", "BadValue"⟩ =
      ⟨.reject 401 "invalid Basic Authentication header", false⟩ :=
  ⟨rfl, by decide, rfl⟩

/-- C8 (amended): without query-parameter credentials, a non-empty
Authorization header that does not split into exactly two space-separated
fields makes the extractor fail with "invalid Basic Authentication header",
and the gate (authentication enabled, at least one user) responds 401 with
that message, never calling `Authenticate`. -/
theorem C8_malformed_header (b64 : String → Option String) (r : Request)
    (hq : ¬ (r.qu ≠ "" ∧ r.qp ≠ "")) (hh : r.authHeader ≠ "")
    (hs : (goSplit r.authHeader ' ').length ≠ 2) :
    getUsernameAndPassword b64 r =
      .error "invalid Basic Authentication header" ∧
    ∀ (users : List User) (authFn : String → String → Except String User),
      0 < users.length →
      makeAuthenticationHandler true users authFn b64 r =
        ⟨.reject 401 "invalid Basic Authentication header", false⟩ := by
  have hx : getUsernameAndPassword b64 r =
      .error "invalid Basic Authentication header" := by
    unfold getUsernameAndPassword
    rw [if_neg hq, if_neg hh]
    rcases hsp : goSplit r.authHeader ' ' with _ | ⟨a, _ | ⟨b, _ | ⟨c, l⟩⟩⟩
    · rfl
    · rfl
    · rw [hsp] at hs; simp at hs
    · rfl
  refine ⟨hx, fun users authFn hu => ?_⟩
  unfold makeAuthenticationHandler
  rw [if_pos ⟨rfl, hu⟩, hx]

/-- Witness for C8 at the concrete header "BadValue" against a directory
with one user. -/
theorem C8_witness :
    makeAuthenticationHandler true stAdmin.users stAdmin.authenticate b64none
      ⟨"", "", "BadValue"⟩ =
      ⟨.reject 401 "invalid Basic Authentication header", false⟩ :=
  (C8_malformed_header b64none ⟨"", "", "BadValue"⟩ (by decide) (by decide)
    (by decide)).2 stAdmin.users stAdmin.authenticate (by decide)

/-- C3: with authentication enabled and at least one user, the gate (i) on
extractor failure rejects 401 with the extractor's error text, (ii) on an
empty extracted username rejects 401 "username required", (iii) on
`Authenticate` failure rejects 401 with the authentication error text,
(iv) on success invokes the downstream handler with the resolved identity;
`Authenticate` is not called in cases (i)-(ii), and on every rejection the
downstream handler never runs: the `/query` route leaves the backend state
unchanged with no backend call and the single 401 response. -/
theorem C3_gate_enabled (st : ServerState)
    (authFn : String → String → Except String User)
    (b64 : String → Option String) (r : Request)
    (hu : 0 < st.users.length) :
    (∀ e, getUsernameAndPassword b64 r = .error e →
      makeAuthenticationHandler true st.users authFn b64 r =
        ⟨.reject 401 e, false⟩) ∧
    (∀ p, getUsernameAndPassword b64 r = .ok ("", p) →
      makeAuthenticationHandler true st.users authFn b64 r =
        ⟨.reject 401 "username required", false⟩) ∧
    (∀ u p e, getUsernameAndPassword b64 r = .ok (u, p) → u ≠ "" →
      authFn u p = .error e →
      makeAuthenticationHandler true st.users authFn b64 r =
        ⟨.reject 401 e, true⟩) ∧
    (∀ u p usr, getUsernameAndPassword b64 r = .ok (u, p) → u ≠ "" →
      authFn u p = .ok usr →
      makeAuthenticationHandler true st.users authFn b64 r =
        ⟨.invoke (some usr), true⟩) ∧
    (∀ stmts status msg,
      (makeAuthenticationHandler true st.users authFn b64 r).decision =
        .reject status msg →
      handleQuery true authFn b64 st r stmts =
        .ok (st, [], [⟨status, msg⟩])) := by
  refine ⟨?_, ?_, ?_, ?_, ?_⟩
  · intro e he
    unfold makeAuthenticationHandler
    rw [if_pos ⟨rfl, hu⟩, he]
  · intro p he
    unfold makeAuthenticationHandler
    rw [if_pos ⟨rfl, hu⟩, he]
    rfl
  · intro u p e he hne ha
    unfold makeAuthenticationHandler
    rw [if_pos ⟨rfl, hu⟩, he]
    simp only [if_neg hne, ha]
  · intro u p usr he hne ha
    unfold makeAuthenticationHandler
    rw [if_pos ⟨rfl, hu⟩, he]
    simp only [if_neg hne, ha]
  · intro stmts status msg hg
    unfold handleQuery
    rw [hg]

/-- Witness for C3 at a concrete credential-free request against a
directory with one user: the extractor returns empty credentials and the
gate rejects 401 "username required". -/
theorem C3_witness :
    makeAuthenticationHandler true stAdmin.users stAdmin.authenticate b64none
      ⟨"", "", ""⟩ = ⟨.reject 401 "username required", false⟩ :=
  (C3_gate_enabled stAdmin stAdmin.authenticate b64none ⟨"", "", ""⟩
    (by decide)).2.1 "" rfl

/-- C1 counterexample: a two-statement query whose first statement is
create-user, reaching `serveQuery` with authentication enabled and one
(admin) user in the directory, is NOT rejected: both statements are
dispatched to the backend and no 401 is emitted. -/
theorem C1_counterexample :
    serveQuery true stAdmin none [.createUser "a" "x", .createUser "b" "y"] =
      .ok (⟨[], [⟨"lisa", "password", true⟩, ⟨"a", "x", false⟩,
          ⟨"b", "y", false⟩], []⟩,
        [(stAdmin, .createUser "a" "x" false),
         (⟨[], [⟨"lisa", "password", true⟩, ⟨"a", "x", false⟩], []⟩,
           .createUser "b" "y" false)],
        []) ∧
    serveQuery true stAdmin none [.createUser "a" "x", .createUser "b" "y"] ≠
      .ok (stAdmin, [], [⟨401, "initial admin user does not exist"⟩]) :=
  ⟨rfl, by decide⟩

/-- C1 (amended): with authentication enabled and at least one user, a
query whose statement count exceeds one is rejected 401 "initial admin
user does not exist" with no backend call if and only if its FIRST
statement is not create-user; a multi-statement query headed by
create-user proceeds to dispatch. -/
theorem C1_multi_statement_reject (st : ServerState) (u : Option User)
    (s0 : Statement) (rest : List Statement)
    (hu : 0 < st.users.length) (hlen : 1 < (s0 :: rest).length)
    (hncu : ∀ n p, s0 ≠ .createUser n p) :
    serveQuery true st u (s0 :: rest) =
      .ok (st, [], [⟨401, "initial admin user does not exist"⟩]) := by
  have hl : (s0 :: rest).length ≠ 1 := by
    simp only [List.length_cons] at hlen ⊢
    omega
  have hbc : bootstrapCheck true st (s0 :: rest) = .ok true := by
    unfold bootstrapCheck
    rw [if_pos ⟨rfl, hu⟩, if_pos hl]
    cases s0 with
    | createUser n p => exact absurd rfl (hncu n p)
    | _ => rfl
  unfold serveQuery
  rw [hbc]

/-- Witness for C1 at a concrete two-statement query whose first statement
is not create-user: rejected 401 with no backend call. -/
theorem C1_witness :
    serveQuery true stAdmin none [.select, .dropDatabase "d"] =
      .ok (stAdmin, [], [⟨401, "initial admin user does not exist"⟩]) :=
  C1_multi_statement_reject stAdmin none .select [.dropDatabase "d"]
    (by decide) (by decide) (fun n p h => Statement.noConfusion h)

/-- C10: with authentication enabled and at least one user, the bootstrap
check indexes `query.Statements[0]` whenever the statement count differs
from one; on a zero-statement query that access is out of bounds, so
`serveQuery` has no defined outcome (a Go runtime panic), while on any
query with at least one statement the access is in range and the check
returns a defined verdict. -/
theorem C10_empty_query_panics (st : ServerState) (u : Option User)
    (hu : 0 < st.users.length) :
    serveQuery true st u [] = .panic indexOutOfRangeMsg ∧
    ∀ s rest, ∃ b, bootstrapCheck true st (s :: rest) = .ok b := by
  constructor
  · have hbc : bootstrapCheck true st [] = .panic indexOutOfRangeMsg := by
      unfold bootstrapCheck
      rw [if_pos ⟨rfl, hu⟩, if_pos (by decide)]
    unfold serveQuery
    rw [hbc]
  · intro s rest
    unfold bootstrapCheck
    rw [if_pos ⟨rfl, hu⟩]
    by_cases hl : (s :: rest).length ≠ 1
    · rw [if_pos hl]
      cases s <;> exact ⟨_, rfl⟩
    · rw [if_neg hl]
      exact ⟨false, rfl⟩

/-- Witness for C10 at the concrete one-admin directory: the empty query
panics, the one-statement query gets a defined verdict. -/
theorem C10_witness :
    serveQuery true stAdmin none [] = .panic indexOutOfRangeMsg ∧
    ∃ b, bootstrapCheck true stAdmin [.select] = .ok b :=
  ⟨(C10_empty_query_panics stAdmin none (by decide)).1,
   (C10_empty_query_panics stAdmin none (by decide)).2 .select []⟩

/-- A statement whose switch arm is `continue` is not a mutating one. -/
theorem dispatchStep_skip_not_mutating (st : ServerState) (s : Statement)
    (hd : dispatchStep st s = .skip) : isMutating s = false := by
  cases s <;> try simp_all [dispatchStep, isMutating]
  case alterRetentionPolicy db name d rep =>
    cases d <;> cases rep <;> simp_all [dispatchStep, isMutating]

/-- A statement whose switch arm issues a backend call is a mutating one. -/
theorem dispatchStep_call_mutating (st : ServerState) (s : Statement)
    (c : BackendCall) (hd : dispatchStep st s = .call c) :
    isMutating s = true := by
  cases s <;> try simp_all [dispatchStep, isMutating]
  case alterRetentionPolicy db name d rep =>
    cases d <;> cases rep <;> simp_all [dispatchStep, isMutating]

/-- Whenever the switch issues a `createUser` backend call, its
`isFirstAdmin` argument is `!AdminUserExists()` read from the dispatch-time
state. -/
theorem dispatchStep_createUser_flag (st : ServerState) (s : Statement)
    (c : BackendCall) (hd : dispatchStep st s = .call c)
    (n p : String) (fa : Bool) (hc : c = .createUser n p fa) :
    fa = ! st.adminUserExists := by
  subst hc
  cases s <;> try simp_all [dispatchStep]
  case alterRetentionPolicy db name d rep =>
    cases d <;> cases rep <;> simp_all [dispatchStep]

/-- C2 counterexample: a query of two statements whose FIRST backend call
fails is not stopped: the second statement is still dispatched (the trace
has both calls) and two error responses are reported, not one. -/
theorem C2_counterexample :
    serveQuery false stX none [.createDatabase "x", .createDatabase "x"] =
      .ok (stX,
        [(stX, .createDatabase "x"), (stX, .createDatabase "x")],
        [⟨400, "error executing query: database exists"⟩,
         ⟨400, "error executing query: database exists"⟩]) := rfl

/-- C2 (amended): the loop executes statements in array order but does NOT
stop at a failing backend call: every mutating statement of the query
contributes its call to the trace regardless of earlier failures, and the
error responses are exactly one 400 per failing dispatched call, in trace
order. -/
theorem C2_loop_continues_after_failure (st : ServerState)
    (stmts : List Statement) (st2 : ServerState)
    (tr : List (ServerState × BackendCall)) (rs : List Response)
    (h : runStatements st stmts = .ok (st2, tr, rs)) :
    tr.length = (stmts.filter isMutating).length ∧
    rs = tr.filterMap responseOfCall := by
  induction stmts generalizing st st2 tr rs with
  | nil =>
    simp only [runStatements, GoResult.ok.injEq, Prod.mk.injEq] at h
    obtain ⟨h1, h2, h3⟩ := h
    subst h2; subst h3
    simp
  | cons s rest ih =>
    simp only [runStatements] at h
    cases hd : dispatchStep st s with
    | crash m =>
      rw [hd] at h
      dsimp only at h
      exact absurd h (by simp)
    | skip =>
      rw [hd] at h
      dsimp only at h
      obtain ⟨hlen, hrs⟩ := ih st st2 tr rs h
      refine ⟨?_, hrs⟩
      rw [List.filter_cons, dispatchStep_skip_not_mutating st s hd]
      exact hlen
    | call c =>
      rw [hd] at h
      dsimp only at h
      cases hr : runStatements (execCall st c).1 rest with
      | panic m =>
        rw [hr] at h
        dsimp only at h
        exact absurd h (by simp)
      | ok val =>
        obtain ⟨st3, tr0, rs0⟩ := val
        rw [hr] at h
        dsimp only at h
        simp only [GoResult.ok.injEq, Prod.mk.injEq] at h
        obtain ⟨h1, h2, h3⟩ := h
        subst h2; subst h3
        obtain ⟨hlen, hrs⟩ := ih (execCall st c).1 st3 tr0 rs0 hr
        constructor
        · rw [List.filter_cons, dispatchStep_call_mutating st s c hd]
          simp [hlen]
        · rw [List.filterMap_cons]
          cases he : (execCall st c).2 <;>
            simp [responseOfCall, errResponses, he, hrs]

/-- Witness for C2 (amended) at the concrete two-failing-statement run of
the counterexample. -/
theorem C2_witness :
    [(stX, BackendCall.createDatabase "x"),
     (stX, BackendCall.createDatabase "x")].length =
      ([Statement.createDatabase "x",
        Statement.createDatabase "x"].filter isMutating).length ∧
    [(⟨400, "error executing query: database exists"⟩ : Response),
     ⟨400, "error executing query: database exists"⟩] =
      [(stX, BackendCall.createDatabase "x"),
       (stX, BackendCall.createDatabase "x")].filterMap responseOfCall :=
  C2_loop_continues_after_failure stX
    [.createDatabase "x", .createDatabase "x"] stX
    [(stX, .createDatabase "x"), (stX, .createDatabase "x")]
    [⟨400, "error executing query: database exists"⟩,
     ⟨400, "error executing query: database exists"⟩] rfl

/-- C5: an alter-retention-policy statement with an absent (nil) duration
dereferences a nil pointer — `serveQuery` panics instead of producing a
malformed-request error — while with both fields present the update
backend call is made with exactly those values. -/
theorem C5_nil_field_panics :
    dispatchStep stAdmin (.alterRetentionPolicy "db0" "rp0" none (some 1)) =
      .crash nilDerefMsg ∧
    serveQuery true stAdmin none
      [.alterRetentionPolicy "db0" "rp0" none (some 1)] = .panic nilDerefMsg ∧
    serveQuery true stAdmin none
      [.alterRetentionPolicy "db0" "rp0" (some 3) none] = .panic nilDerefMsg ∧
    ∀ (db name : String) (d rep : Int) (st : ServerState),
      dispatchStep st (.alterRetentionPolicy db name (some d) (some rep)) =
        .call (.updateRetentionPolicy db name
          { name := name, duration := d, replicaN := goUint32OfInt rep }) :=
  ⟨rfl, rfl, rfl, fun _ _ _ _ _ => rfl⟩

/-- C6: every `createUser` backend call in a dispatch trace carries
`isFirstAdmin = true` exactly when no admin user exists in the directory
state at the moment that statement is dispatched. -/
theorem C6_isFirstAdmin_iff_no_admin (st : ServerState)
    (stmts : List Statement) (st2 : ServerState)
    (tr : List (ServerState × BackendCall)) (rs : List Response)
    (h : runStatements st stmts = .ok (st2, tr, rs)) :
    ∀ sc ∈ tr, ∀ n p fa, sc.2 = BackendCall.createUser n p fa →
      fa = ! sc.1.adminUserExists := by
  induction stmts generalizing st st2 tr rs with
  | nil =>
    simp only [runStatements, GoResult.ok.injEq, Prod.mk.injEq] at h
    obtain ⟨h1, h2, h3⟩ := h
    subst h2
    simp
  | cons s rest ih =>
    simp only [runStatements] at h
    cases hd : dispatchStep st s with
    | crash m =>
      rw [hd] at h
      dsimp only at h
      exact absurd h (by simp)
    | skip =>
      rw [hd] at h
      dsimp only at h
      exact ih st st2 tr rs h
    | call c =>
      rw [hd] at h
      dsimp only at h
      cases hr : runStatements (execCall st c).1 rest with
      | panic m =>
        rw [hr] at h
        dsimp only at h
        exact absurd h (by simp)
      | ok val =>
        obtain ⟨st3, tr0, rs0⟩ := val
        rw [hr] at h
        dsimp only at h
        simp only [GoResult.ok.injEq, Prod.mk.injEq] at h
        obtain ⟨h1, h2, h3⟩ := h
        subst h2
        intro sc hsc n p fa hc
        rcases List.mem_cons.mp hsc with hsc | hsc
        · subst hsc
          exact dispatchStep_createUser_flag st s c hd n p fa hc
        · exact ih (execCall st c).1 st3 tr0 rs0 hr sc hsc n p fa hc

/-- Witness for C6: Example 3 — empty directory, no credentials, single
create-user query; the gate passes (bootstrap), `createUser` is called
with `isFirstAdmin = true`, and the query succeeds with no error
response. -/
theorem C6_witness :
    handleQuery true st0.authenticate b64none st0 ⟨"", "", ""⟩
      [.createUser "orla" "pass"] =
      .ok (⟨[], [⟨"orla", "pass", true⟩], []⟩,
        [(st0, .createUser "orla" "pass" true)], []) ∧
    true = ! st0.adminUserExists :=
  ⟨rfl,
   C6_isFirstAdmin_iff_no_admin st0 [.createUser "orla" "pass"]
     ⟨[], [⟨"orla", "pass", true⟩], []⟩
     [(st0, .createUser "orla" "pass" true)] [] rfl
     (st0, .createUser "orla" "pass" true) (by simp)
     "orla" "pass" true rfl⟩

/-- C9: the create-retention-policy arm passes a policy whose `ReplicaN`
is the statement's signed replication value coerced by Go's `uint32(...)`:
congruent to it modulo `2^32` and within `[0, 2^32)`; in particular `-1`
reaches the backend as `4294967295`. -/
theorem C9_replication_uint32 (st : ServerState) (db name : String)
    (dur rep : Int) :
    dispatchStep st (.createRetentionPolicy db name dur rep) =
      .call (.createRetentionPolicy db
        { name := name, duration := dur, replicaN := goUint32OfInt rep }) ∧
    (goUint32OfInt rep : Int) % 2 ^ 32 = rep % 2 ^ 32 ∧
    goUint32OfInt rep < 2 ^ 32 ∧
    goUint32OfInt (-1) = 4294967295 := by
  refine ⟨rfl, ?_, ?_, ?_⟩
  · unfold goUint32OfInt
    rw [Int.toNat_of_nonneg (Int.emod_nonneg rep (by norm_num))]
    exact Int.emod_emod_of_dvd rep dvd_rfl
  · unfold goUint32OfInt
    have h1 : 0 ≤ rep % (2 ^ 32 : Int) := Int.emod_nonneg rep (by norm_num)
    have h2 : rep % (2 ^ 32 : Int) < 2 ^ 32 := Int.emod_lt_of_pos rep (by norm_num)
    have e1 : (2 ^ 32 : Int) = 4294967296 := by norm_num
    have e2 : (2 ^ 32 : Nat) = 4294967296 := by norm_num
    rw [e1] at h1 h2
    rw [e2]
    omega
  · have hm : ((-1 : Int) % 2 ^ 32) = 4294967295 := by norm_num
    unfold goUint32OfInt
    rw [hm]
    rfl

end InfluxHandler
